import Mathlib

/-!
Shallow embedding of `src/ineq_constraints.py`: regulatory-capital
inequality constraints (standardized RWA, advanced RWA, leverage) at the
CET1 / Tier1 / Total-Capital / TLAC levels, as evaluated inside a
balance-sheet optimization.

Python floats are modelled by `ℚ`; the dataframe `df` by a record of
named numeric columns (`List ℚ`); an out-of-range index (an `IndexError`
in the source) by `Option.none`.  Each source function is translated
loop-for-loop.
-/

namespace IneqConstraints

/-- The accumulating loop of the Python source: start at 0 and, for
`i` in `range n`, add the value of the body at `i`; an out-of-range
index inside the body (an `IndexError` in the source) aborts the
computation. -/
def loopSum : ℕ → (ℕ → Option ℚ) → Option ℚ
  | 0, _ => some 0
  | Nat.succ n, f => (loopSum n f).bind fun s => (f n).bind fun v => some (s + v)

/-- The reference dataframe `df` of balance-sheet inputs: one row per
line item, with the numeric columns read by the constraint functions. -/
structure RefTable where
  cet1_contr_per_balance : List ℚ
  s_rwa : List ℚ
  a_rwa : List ℚ
  CET1_resource : List ℚ
  T1_resource : List ℚ
  total_capital_resource : List ℚ
  TLAC_resource : List ℚ
  b1_leverage : List ℚ

/-- Function `srwa_cet1` of the source: standardized RWA constraint at the CET1
level.  First loop accumulates the GSIB add-on, second loop accumulates
the constraint with threshold `sRWA_mins[0]`. -/
def srwa_cet1 (x : List ℚ) (df : RefTable) (sRWA_mins : List ℚ) : Option ℚ :=
  let gsib_cont := df.cet1_contr_per_balance
  let s_rwa := df.s_rwa
  let cet1_resource := df.CET1_resource
  (loopSum x.length fun i =>
      (x.get? i).bind fun xi => (gsib_cont.get? i).bind fun ci => some (xi * ci)).bind
    fun gsib_addon =>
      loopSum x.length fun i =>
        (sRWA_mins.get? 0).bind fun m => (s_rwa.get? i).bind fun si =>
          (x.get? i).bind fun xi => (cet1_resource.get? i).bind fun ri =>
            some (-((m + gsib_addon) * si * xi) + ri * xi)

/-- Function `srwa_t1` of the source: standardized RWA constraint at the Tier1
level, threshold `sRWA_mins[1]`. -/
def srwa_t1 (x : List ℚ) (df : RefTable) (sRWA_mins : List ℚ) : Option ℚ :=
  let gsib_cont := df.cet1_contr_per_balance
  let s_rwa := df.s_rwa
  let t1_resource := df.T1_resource
  (loopSum x.length fun i =>
      (x.get? i).bind fun xi => (gsib_cont.get? i).bind fun ci => some (xi * ci)).bind
    fun gsib_addon =>
      loopSum x.length fun i =>
        (sRWA_mins.get? 1).bind fun m => (s_rwa.get? i).bind fun si =>
          (x.get? i).bind fun xi => (t1_resource.get? i).bind fun ri =>
            some (-((m + gsib_addon) * si * xi) + ri * xi)

/-- Function `srwa_tc` of the source: standardized RWA constraint at the Total
Capital level, threshold `sRWA_mins[2]`. -/
def srwa_tc (x : List ℚ) (df : RefTable) (sRWA_mins : List ℚ) : Option ℚ :=
  let gsib_cont := df.cet1_contr_per_balance
  let s_rwa := df.s_rwa
  let tc_resource := df.total_capital_resource
  (loopSum x.length fun i =>
      (x.get? i).bind fun xi => (gsib_cont.get? i).bind fun ci => some (xi * ci)).bind
    fun gsib_addon =>
      loopSum x.length fun i =>
        (sRWA_mins.get? 2).bind fun m => (s_rwa.get? i).bind fun si =>
          (x.get? i).bind fun xi => (tc_resource.get? i).bind fun ri =>
            some (-((m + gsib_addon) * si * xi) + ri * xi)

/-- Function `srwa_tlac` of the source: standardized RWA constraint at the TLAC
level, threshold `sRWA_mins[3]`. -/
def srwa_tlac (x : List ℚ) (df : RefTable) (sRWA_mins : List ℚ) : Option ℚ :=
  let gsib_cont := df.cet1_contr_per_balance
  let s_rwa := df.s_rwa
  let tlac_resource := df.TLAC_resource
  (loopSum x.length fun i =>
      (x.get? i).bind fun xi => (gsib_cont.get? i).bind fun ci => some (xi * ci)).bind
    fun gsib_addon =>
      loopSum x.length fun i =>
        (sRWA_mins.get? 3).bind fun m => (s_rwa.get? i).bind fun si =>
          (x.get? i).bind fun xi => (tlac_resource.get? i).bind fun ri =>
            some (-((m + gsib_addon) * si * xi) + ri * xi)

/-- Function `arwa_cet1` of the source: advanced RWA constraint at the CET1
level, threshold `aRWA_mins[0]`. -/
def arwa_cet1 (x : List ℚ) (df : RefTable) (aRWA_mins : List ℚ) : Option ℚ :=
  let gsib_cont := df.cet1_contr_per_balance
  let a_rwa := df.a_rwa
  let cet1_resource := df.CET1_resource
  (loopSum x.length fun i =>
      (x.get? i).bind fun xi => (gsib_cont.get? i).bind fun ci => some (xi * ci)).bind
    fun gsib_addon =>
      loopSum x.length fun i =>
        (aRWA_mins.get? 0).bind fun m => (a_rwa.get? i).bind fun si =>
          (x.get? i).bind fun xi => (cet1_resource.get? i).bind fun ri =>
            some (-((m + gsib_addon) * si * xi) + ri * xi)

/-- Function `arwa_t1` of the source: advanced RWA constraint at the Tier1
level, threshold `aRWA_mins[1]`. -/
def arwa_t1 (x : List ℚ) (df : RefTable) (aRWA_mins : List ℚ) : Option ℚ :=
  let gsib_cont := df.cet1_contr_per_balance
  let a_rwa := df.a_rwa
  let t1_resource := df.T1_resource
  (loopSum x.length fun i =>
      (x.get? i).bind fun xi => (gsib_cont.get? i).bind fun ci => some (xi * ci)).bind
    fun gsib_addon =>
      loopSum x.length fun i =>
        (aRWA_mins.get? 1).bind fun m => (a_rwa.get? i).bind fun si =>
          (x.get? i).bind fun xi => (t1_resource.get? i).bind fun ri =>
            some (-((m + gsib_addon) * si * xi) + ri * xi)

/-- Function `arwa_tc` of the source: advanced RWA constraint at the Total
Capital level, threshold `aRWA_mins[2]`. -/
def arwa_tc (x : List ℚ) (df : RefTable) (aRWA_mins : List ℚ) : Option ℚ :=
  let gsib_cont := df.cet1_contr_per_balance
  let a_rwa := df.a_rwa
  let tc_resource := df.total_capital_resource
  (loopSum x.length fun i =>
      (x.get? i).bind fun xi => (gsib_cont.get? i).bind fun ci => some (xi * ci)).bind
    fun gsib_addon =>
      loopSum x.length fun i =>
        (aRWA_mins.get? 2).bind fun m => (a_rwa.get? i).bind fun si =>
          (x.get? i).bind fun xi => (tc_resource.get? i).bind fun ri =>
            some (-((m + gsib_addon) * si * xi) + ri * xi)

/-- Function `arwa_tlac` of the source: advanced RWA constraint at the TLAC
level, threshold `aRWA_mins[3]`. -/
def arwa_tlac (x : List ℚ) (df : RefTable) (aRWA_mins : List ℚ) : Option ℚ :=
  let gsib_cont := df.cet1_contr_per_balance
  let a_rwa := df.a_rwa
  let tlac_resource := df.TLAC_resource
  (loopSum x.length fun i =>
      (x.get? i).bind fun xi => (gsib_cont.get? i).bind fun ci => some (xi * ci)).bind
    fun gsib_addon =>
      loopSum x.length fun i =>
        (aRWA_mins.get? 3).bind fun m => (a_rwa.get? i).bind fun si =>
          (x.get? i).bind fun xi => (tlac_resource.get? i).bind fun ri =>
            some (-((m + gsib_addon) * si * xi) + ri * xi)

/-- Function `lev_cet1` of the source: leverage constraint at the CET1 level,
threshold `lev_mins[0]`.  No GSIB add-on loop appears in the source. -/
def lev_cet1 (x : List ℚ) (df : RefTable) (lev_mins : List ℚ) : Option ℚ :=
  let b1_lev := df.b1_leverage
  let cet1_resource := df.CET1_resource
  loopSum x.length fun i =>
    (lev_mins.get? 0).bind fun m => (b1_lev.get? i).bind fun bi =>
      (x.get? i).bind fun xi => (cet1_resource.get? i).bind fun ri =>
        some (-(m * bi * xi) + ri * xi)

/-- Function `lev_t1` of the source: leverage constraint at the Tier1 level,
threshold `lev_mins[1]`.  No GSIB add-on loop appears in the source. -/
def lev_t1 (x : List ℚ) (df : RefTable) (lev_mins : List ℚ) : Option ℚ :=
  let b1_lev := df.b1_leverage
  let t1_resource := df.T1_resource
  loopSum x.length fun i =>
    (lev_mins.get? 1).bind fun m => (b1_lev.get? i).bind fun bi =>
      (x.get? i).bind fun xi => (t1_resource.get? i).bind fun ri =>
        some (-(m * bi * xi) + ri * xi)

/-! ### Basic list-indexing lemmas -/

lemma get?_eq_some_getD {l : List ℚ} {i : ℕ} (h : i < l.length) :
    l.get? i = some (l.getD i 0) := by
  induction l generalizing i with
  | nil => simp at h
  | cons a t ih =>
    cases i with
    | zero => rfl
    | succ j =>
      have hj : j < t.length := by simpa using h
      simpa [List.get?, List.getD] using ih hj

lemma get?_eq_none_of_le {l : List ℚ} {i : ℕ} (h : l.length ≤ i) :
    l.get? i = none := by
  induction l generalizing i with
  | nil => simp [List.get?]
  | cons a t ih =>
    cases i with
    | zero => simp at h
    | succ j =>
      have hj : t.length ≤ j := by simpa using h
      simpa [List.get?] using ih hj

lemma getD_mem {l : List ℚ} {i : ℕ} (h : i < l.length) : l.getD i 0 ∈ l := by
  induction l generalizing i with
  | nil => simp at h
  | cons a t ih =>
    cases i with
    | zero => simp [List.getD]
    | succ j =>
      have hj : j < t.length := by simpa using h
      exact List.mem_cons_of_mem a (ih hj)

lemma getD_zero_of_all_zero {l : List ℚ} (h : ∀ v ∈ l, v = 0) (i : ℕ) :
    l.getD i 0 = 0 := by
  by_cases hi : i < l.length
  · exact h _ (getD_mem hi)
  · push_neg at hi
    rw [List.getD_eq_getElem?_getD, List.getElem?_eq_none hi]
    rfl

lemma getD_map_mul (k : ℚ) (l : List ℚ) (i : ℕ) :
    (l.map fun v => k * v).getD i 0 = k * l.getD i 0 := by
  induction l generalizing i with
  | nil => simp [List.getD]
  | cons a t ih =>
    cases i with
    | zero => rfl
    | succ j => simpa [List.getD] using ih j

lemma get?_map_mul (k : ℚ) (l : List ℚ) (i : ℕ) :
    (l.map fun v => k * v).get? i = (l.get? i).map fun v => k * v := by
  induction l generalizing i with
  | nil => simp
  | cons a t ih =>
    cases i with
    | zero => rfl
    | succ j => simp [List.get?, ih j]

/-! ### Lemmas about the accumulating loop -/

lemma loopSum_eq_some (n : ℕ) (f : ℕ → Option ℚ) (g : ℕ → ℚ)
    (h : ∀ i < n, f i = some (g i)) :
    loopSum n f = some (∑ i ∈ Finset.range n, g i) := by
  induction n with
  | zero => simp [loopSum]
  | succ m ih =>
    have hm : ∀ i < m, f i = some (g i) := fun i hi => h i (Nat.lt_succ_of_lt hi)
    rw [loopSum, ih hm, h m (Nat.lt_succ_self m)]
    simp [Finset.sum_range_succ]

lemma loopSum_eq_none (n : ℕ) (f : ℕ → Option ℚ)
    (h : ∃ i, i < n ∧ f i = none) : loopSum n f = none := by
  induction n with
  | zero =>
    obtain ⟨i, hi, _⟩ := h
    exact absurd hi (Nat.not_lt_zero i)
  | succ m ih =>
    obtain ⟨i, hi, hfi⟩ := h
    rcases Nat.lt_succ_iff_lt_or_eq.mp hi with hlt | rfl
    · rw [loopSum, ih ⟨i, hlt, hfi⟩]
      rfl
    · rw [loopSum]
      cases loopSum i f with
      | none => rfl
      | some s => simp [hfi]

lemma loopSum_zero_of (n : ℕ) (f : ℕ → Option ℚ)
    (h : ∀ i < n, ∀ v, f i = some v → v = 0) :
    ∀ r, loopSum n f = some r → r = 0 := by
  induction n with
  | zero =>
    intro r hr
    simpa [loopSum] using hr.symm
  | succ m ih =>
    intro r hr
    rw [loopSum] at hr
    cases hs : loopSum m f with
    | none => simp [hs] at hr
    | some s =>
      rw [hs] at hr
      cases hv : f m with
      | none => simp [hv] at hr
      | some v =>
        rw [hv] at hr
        have hs0 : s = 0 := ih (fun i hi => h i (Nat.lt_succ_of_lt hi)) s hs
        have hv0 : v = 0 := h m (Nat.lt_succ_self m) v hv
        have : s + v = r := by simpa using hr
        rw [← this, hs0, hv0, add_zero]

lemma loopSum_map (k : ℚ) (n : ℕ) (f g : ℕ → Option ℚ)
    (h : ∀ i < n, g i = (f i).map fun v => k * v) :
    loopSum n g = (loopSum n f).map fun v => k * v := by
  induction n with
  | zero => simp [loopSum]
  | succ m ih =>
    rw [loopSum, loopSum, ih (fun i hi => h i (Nat.lt_succ_of_lt hi)),
      h m (Nat.lt_succ_self m)]
    cases loopSum m f with
    | none => rfl
    | some s =>
      cases f m with
      | none => rfl
      | some v => simp [mul_add]

lemma sum_constraint_split (n : ℕ) (t : ℚ) (s r xx : ℕ → ℚ) :
    ∑ i ∈ Finset.range n, (-(t * s i * xx i) + r i * xx i)
      = (∑ i ∈ Finset.range n, r i * xx i) - t * ∑ i ∈ Finset.range n, s i * xx i := by
  rw [Finset.mul_sum, ← Finset.sum_sub_distrib]
  exact Finset.sum_congr rfl fun i _ => by ring

/-! ### Spec-side formulas (transcribed from the spec, for refinement
statements; compare with the loop translations above) -/

/-- The GSIB add-on as the spec writes it:
`Σ_i balance[i] * gsib_contribution[i]` over all line items, the
contribution column being `cet1_contr_per_balance`. -/
def gsib_addon_spec (x : List ℚ) (df : RefTable) : ℚ :=
  ∑ i ∈ Finset.range x.length, x.getD i 0 * df.cet1_contr_per_balance.getD i 0

/-- The constraint formula as the spec writes it:
`Σ_i (resource[i]*x[i] − t*risk[i]*x[i])` with `t` the effective
threshold (base minimum, plus GSIB add-on where applicable). -/
def constraint_spec (x risk res : List ℚ) (t : ℚ) : ℚ :=
  ∑ i ∈ Finset.range x.length, (res.getD i 0 * x.getD i 0 - t * risk.getD i 0 * x.getD i 0)

/-! ### Closed forms of the two loop shapes -/

lemma gsibShape_closed (x gcol rcol rescol mins : List ℚ) (idx : ℕ)
    (hg : x.length ≤ gcol.length) (hr : x.length ≤ rcol.length)
    (hres : x.length ≤ rescol.length) (hm : idx < mins.length) :
    ((loopSum x.length fun i =>
        (x.get? i).bind fun xi => (gcol.get? i).bind fun ci => some (xi * ci)).bind
      fun gsib_addon =>
        loopSum x.length fun i =>
          (mins.get? idx).bind fun m => (rcol.get? i).bind fun si =>
            (x.get? i).bind fun xi => (rescol.get? i).bind fun ri =>
              some (-((m + gsib_addon) * si * xi) + ri * xi))
    = some (∑ i ∈ Finset.range x.length,
        (-((mins.getD idx 0 + ∑ j ∈ Finset.range x.length, x.getD j 0 * gcol.getD j 0)
            * rcol.getD i 0 * x.getD i 0) + rescol.getD i 0 * x.getD i 0)) := by
  have h1 : (loopSum x.length fun i =>
      (x.get? i).bind fun xi => (gcol.get? i).bind fun ci => some (xi * ci))
      = some (∑ j ∈ Finset.range x.length, x.getD j 0 * gcol.getD j 0) := by
    apply loopSum_eq_some
    intro i hi
    rw [get?_eq_some_getD hi, get?_eq_some_getD (lt_of_lt_of_le hi hg)]
    rfl
  rw [h1, Option.some_bind]
  apply loopSum_eq_some
  intro i hi
  rw [get?_eq_some_getD hm, get?_eq_some_getD (lt_of_lt_of_le hi hr),
    get?_eq_some_getD hi, get?_eq_some_getD (lt_of_lt_of_le hi hres)]
  rfl

lemma levShape_closed (x lcol rescol mins : List ℚ) (idx : ℕ)
    (hl : x.length ≤ lcol.length) (hres : x.length ≤ rescol.length)
    (hm : idx < mins.length) :
    (loopSum x.length fun i =>
      (mins.get? idx).bind fun m => (lcol.get? i).bind fun bi =>
        (x.get? i).bind fun xi => (rescol.get? i).bind fun ri =>
          some (-(m * bi * xi) + ri * xi))
    = some (∑ i ∈ Finset.range x.length,
        (-(mins.getD idx 0 * lcol.getD i 0 * x.getD i 0)
          + rescol.getD i 0 * x.getD i 0)) := by
  apply loopSum_eq_some
  intro i hi
  rw [get?_eq_some_getD hm, get?_eq_some_getD (lt_of_lt_of_le hi hl),
    get?_eq_some_getD hi, get?_eq_some_getD (lt_of_lt_of_le hi hres)]
  rfl

lemma closed_eq_spec (x risk res : List ℚ) (t : ℚ) :
    ∑ i ∈ Finset.range x.length,
        (-(t * risk.getD i 0 * x.getD i 0) + res.getD i 0 * x.getD i 0)
      = constraint_spec x risk res t := by
  unfold constraint_spec
  exact Finset.sum_congr rfl fun i _ => by ring

/-! ### Per-function closed forms -/

lemma srwa_cet1_closed (x : List ℚ) (df : RefTable) (mins : List ℚ)
    (hg : x.length ≤ df.cet1_contr_per_balance.length)
    (hr : x.length ≤ df.s_rwa.length)
    (hres : x.length ≤ df.CET1_resource.length)
    (hm : 0 < mins.length) :
    srwa_cet1 x df mins = some (constraint_spec x df.s_rwa df.CET1_resource
      (mins.getD 0 0 + gsib_addon_spec x df)) := by
  have h := gsibShape_closed x df.cet1_contr_per_balance df.s_rwa df.CET1_resource
    mins 0 hg hr hres hm
  rw [show srwa_cet1 x df mins = _ from h, closed_eq_spec]
  rfl

lemma srwa_t1_closed (x : List ℚ) (df : RefTable) (mins : List ℚ)
    (hg : x.length ≤ df.cet1_contr_per_balance.length)
    (hr : x.length ≤ df.s_rwa.length)
    (hres : x.length ≤ df.T1_resource.length)
    (hm : 1 < mins.length) :
    srwa_t1 x df mins = some (constraint_spec x df.s_rwa df.T1_resource
      (mins.getD 1 0 + gsib_addon_spec x df)) := by
  have h := gsibShape_closed x df.cet1_contr_per_balance df.s_rwa df.T1_resource
    mins 1 hg hr hres hm
  rw [show srwa_t1 x df mins = _ from h, closed_eq_spec]
  rfl

lemma srwa_tc_closed (x : List ℚ) (df : RefTable) (mins : List ℚ)
    (hg : x.length ≤ df.cet1_contr_per_balance.length)
    (hr : x.length ≤ df.s_rwa.length)
    (hres : x.length ≤ df.total_capital_resource.length)
    (hm : 2 < mins.length) :
    srwa_tc x df mins = some (constraint_spec x df.s_rwa df.total_capital_resource
      (mins.getD 2 0 + gsib_addon_spec x df)) := by
  have h := gsibShape_closed x df.cet1_contr_per_balance df.s_rwa
    df.total_capital_resource mins 2 hg hr hres hm
  rw [show srwa_tc x df mins = _ from h, closed_eq_spec]
  rfl

lemma srwa_tlac_closed (x : List ℚ) (df : RefTable) (mins : List ℚ)
    (hg : x.length ≤ df.cet1_contr_per_balance.length)
    (hr : x.length ≤ df.s_rwa.length)
    (hres : x.length ≤ df.TLAC_resource.length)
    (hm : 3 < mins.length) :
    srwa_tlac x df mins = some (constraint_spec x df.s_rwa df.TLAC_resource
      (mins.getD 3 0 + gsib_addon_spec x df)) := by
  have h := gsibShape_closed x df.cet1_contr_per_balance df.s_rwa df.TLAC_resource
    mins 3 hg hr hres hm
  rw [show srwa_tlac x df mins = _ from h, closed_eq_spec]
  rfl

lemma arwa_cet1_closed (x : List ℚ) (df : RefTable) (mins : List ℚ)
    (hg : x.length ≤ df.cet1_contr_per_balance.length)
    (hr : x.length ≤ df.a_rwa.length)
    (hres : x.length ≤ df.CET1_resource.length)
    (hm : 0 < mins.length) :
    arwa_cet1 x df mins = some (constraint_spec x df.a_rwa df.CET1_resource
      (mins.getD 0 0 + gsib_addon_spec x df)) := by
  have h := gsibShape_closed x df.cet1_contr_per_balance df.a_rwa df.CET1_resource
    mins 0 hg hr hres hm
  rw [show arwa_cet1 x df mins = _ from h, closed_eq_spec]
  rfl

lemma arwa_t1_closed (x : List ℚ) (df : RefTable) (mins : List ℚ)
    (hg : x.length ≤ df.cet1_contr_per_balance.length)
    (hr : x.length ≤ df.a_rwa.length)
    (hres : x.length ≤ df.T1_resource.length)
    (hm : 1 < mins.length) :
    arwa_t1 x df mins = some (constraint_spec x df.a_rwa df.T1_resource
      (mins.getD 1 0 + gsib_addon_spec x df)) := by
  have h := gsibShape_closed x df.cet1_contr_per_balance df.a_rwa df.T1_resource
    mins 1 hg hr hres hm
  rw [show arwa_t1 x df mins = _ from h, closed_eq_spec]
  rfl

lemma arwa_tc_closed (x : List ℚ) (df : RefTable) (mins : List ℚ)
    (hg : x.length ≤ df.cet1_contr_per_balance.length)
    (hr : x.length ≤ df.a_rwa.length)
    (hres : x.length ≤ df.total_capital_resource.length)
    (hm : 2 < mins.length) :
    arwa_tc x df mins = some (constraint_spec x df.a_rwa df.total_capital_resource
      (mins.getD 2 0 + gsib_addon_spec x df)) := by
  have h := gsibShape_closed x df.cet1_contr_per_balance df.a_rwa
    df.total_capital_resource mins 2 hg hr hres hm
  rw [show arwa_tc x df mins = _ from h, closed_eq_spec]
  rfl

lemma arwa_tlac_closed (x : List ℚ) (df : RefTable) (mins : List ℚ)
    (hg : x.length ≤ df.cet1_contr_per_balance.length)
    (hr : x.length ≤ df.a_rwa.length)
    (hres : x.length ≤ df.TLAC_resource.length)
    (hm : 3 < mins.length) :
    arwa_tlac x df mins = some (constraint_spec x df.a_rwa df.TLAC_resource
      (mins.getD 3 0 + gsib_addon_spec x df)) := by
  have h := gsibShape_closed x df.cet1_contr_per_balance df.a_rwa df.TLAC_resource
    mins 3 hg hr hres hm
  rw [show arwa_tlac x df mins = _ from h, closed_eq_spec]
  rfl

lemma lev_cet1_closed (x : List ℚ) (df : RefTable) (mins : List ℚ)
    (hl : x.length ≤ df.b1_leverage.length)
    (hres : x.length ≤ df.CET1_resource.length)
    (hm : 0 < mins.length) :
    lev_cet1 x df mins = some (constraint_spec x df.b1_leverage df.CET1_resource
      (mins.getD 0 0)) := by
  have h := levShape_closed x df.b1_leverage df.CET1_resource mins 0 hl hres hm
  rw [show lev_cet1 x df mins = _ from h, closed_eq_spec]

lemma lev_t1_closed (x : List ℚ) (df : RefTable) (mins : List ℚ)
    (hl : x.length ≤ df.b1_leverage.length)
    (hres : x.length ≤ df.T1_resource.length)
    (hm : 1 < mins.length) :
    lev_t1 x df mins = some (constraint_spec x df.b1_leverage df.T1_resource
      (mins.getD 1 0)) := by
  have h := levShape_closed x df.b1_leverage df.T1_resource mins 1 hl hres hm
  rw [show lev_t1 x df mins = _ from h, closed_eq_spec]

/-! ### Concrete data for witnesses and counterexamples -/

/-- Concrete two-line-item reference table of the spec's worked
scenario: standardized RWA weights [1/2, 1], CET1 resource weights
[1, 0], zero GSIB contributions. -/
def exDf : RefTable := ⟨[0, 0], [1/2, 1], [0, 0], [1, 0], [0, 0], [0, 0], [0, 0], [0, 0]⟩

/-- Concrete two-line-item reference table with nonzero entries in
every column. -/
def wDf : RefTable :=
  ⟨[1/100, 1/50], [1/2, 1], [3/5, 9/10], [1, 0], [1, 1/10], [1, 1/5], [1, 3/10], [2, 1]⟩

/-- Concrete threshold vector [0.045, 0.06, 0.08, 0.18]. -/
def wMins : List ℚ := [9/200, 3/50, 2/25, 9/50]

/-! ### Claim theorems -/

/-- C1: for every balance vector `x`, reference table `df`, and
threshold vector `mins` of sufficient length, each of the eight
GSIB-bearing RWA functions returns exactly
`Σ_i (resource[i]*x[i] − (mins[idx] + gsib_addon)*risk[i]*x[i])`, where
`gsib_addon = Σ_i x[i]*gsib_contribution[i]` is computed over all line
items first; the standardized functions use column `s_rwa`, the
advanced ones `a_rwa`, with threshold indices 0, 1, 2, 3 for the CET1,
Tier1, Total-Capital, TLAC tiers. -/
theorem gsib_rwa_constraints_formula (x : List ℚ) (df : RefTable) (mins : List ℚ)
    (hg : x.length ≤ df.cet1_contr_per_balance.length)
    (hs : x.length ≤ df.s_rwa.length)
    (ha : x.length ≤ df.a_rwa.length)
    (h1 : x.length ≤ df.CET1_resource.length)
    (h2 : x.length ≤ df.T1_resource.length)
    (h3 : x.length ≤ df.total_capital_resource.length)
    (h4 : x.length ≤ df.TLAC_resource.length)
    (hm : 4 ≤ mins.length) :
    srwa_cet1 x df mins = some (constraint_spec x df.s_rwa df.CET1_resource
        (mins.getD 0 0 + gsib_addon_spec x df)) ∧
    srwa_t1 x df mins = some (constraint_spec x df.s_rwa df.T1_resource
        (mins.getD 1 0 + gsib_addon_spec x df)) ∧
    srwa_tc x df mins = some (constraint_spec x df.s_rwa df.total_capital_resource
        (mins.getD 2 0 + gsib_addon_spec x df)) ∧
    srwa_tlac x df mins = some (constraint_spec x df.s_rwa df.TLAC_resource
        (mins.getD 3 0 + gsib_addon_spec x df)) ∧
    arwa_cet1 x df mins = some (constraint_spec x df.a_rwa df.CET1_resource
        (mins.getD 0 0 + gsib_addon_spec x df)) ∧
    arwa_t1 x df mins = some (constraint_spec x df.a_rwa df.T1_resource
        (mins.getD 1 0 + gsib_addon_spec x df)) ∧
    arwa_tc x df mins = some (constraint_spec x df.a_rwa df.total_capital_resource
        (mins.getD 2 0 + gsib_addon_spec x df)) ∧
    arwa_tlac x df mins = some (constraint_spec x df.a_rwa df.TLAC_resource
        (mins.getD 3 0 + gsib_addon_spec x df)) :=
  ⟨srwa_cet1_closed x df mins hg hs h1 (lt_of_lt_of_le (by norm_num) hm),
   srwa_t1_closed x df mins hg hs h2 (lt_of_lt_of_le (by norm_num) hm),
   srwa_tc_closed x df mins hg hs h3 (lt_of_lt_of_le (by norm_num) hm),
   srwa_tlac_closed x df mins hg hs h4 (lt_of_lt_of_le (by norm_num) hm),
   arwa_cet1_closed x df mins hg ha h1 (lt_of_lt_of_le (by norm_num) hm),
   arwa_t1_closed x df mins hg ha h2 (lt_of_lt_of_le (by norm_num) hm),
   arwa_tc_closed x df mins hg ha h3 (lt_of_lt_of_le (by norm_num) hm),
   arwa_tlac_closed x df mins hg ha h4 (lt_of_lt_of_le (by norm_num) hm)⟩

/-- Witness for C1 at a concrete two-line-item input. -/
theorem gsib_rwa_constraints_formula_witness :
    srwa_cet1 [100, 200] wDf wMins = some (constraint_spec [100, 200] wDf.s_rwa
        wDf.CET1_resource (wMins.getD 0 0 + gsib_addon_spec [100, 200] wDf)) ∧
    srwa_t1 [100, 200] wDf wMins = some (constraint_spec [100, 200] wDf.s_rwa
        wDf.T1_resource (wMins.getD 1 0 + gsib_addon_spec [100, 200] wDf)) ∧
    srwa_tc [100, 200] wDf wMins = some (constraint_spec [100, 200] wDf.s_rwa
        wDf.total_capital_resource (wMins.getD 2 0 + gsib_addon_spec [100, 200] wDf)) ∧
    srwa_tlac [100, 200] wDf wMins = some (constraint_spec [100, 200] wDf.s_rwa
        wDf.TLAC_resource (wMins.getD 3 0 + gsib_addon_spec [100, 200] wDf)) ∧
    arwa_cet1 [100, 200] wDf wMins = some (constraint_spec [100, 200] wDf.a_rwa
        wDf.CET1_resource (wMins.getD 0 0 + gsib_addon_spec [100, 200] wDf)) ∧
    arwa_t1 [100, 200] wDf wMins = some (constraint_spec [100, 200] wDf.a_rwa
        wDf.T1_resource (wMins.getD 1 0 + gsib_addon_spec [100, 200] wDf)) ∧
    arwa_tc [100, 200] wDf wMins = some (constraint_spec [100, 200] wDf.a_rwa
        wDf.total_capital_resource (wMins.getD 2 0 + gsib_addon_spec [100, 200] wDf)) ∧
    arwa_tlac [100, 200] wDf wMins = some (constraint_spec [100, 200] wDf.a_rwa
        wDf.TLAC_resource (wMins.getD 3 0 + gsib_addon_spec [100, 200] wDf)) :=
  gsib_rwa_constraints_formula [100, 200] wDf wMins (by decide) (by decide) (by decide)
    (by decide) (by decide) (by decide) (by decide) (by decide)

/-- C2: the leverage constraints `lev_cet1` and `lev_t1` return exactly
`Σ_i (resource[i]*x[i] − lev_mins[idx]*leverage_weight[i]*x[i])` with
index 0 resp. 1; the effective threshold is the bare minimum — no GSIB
add-on term appears (the definitions of `lev_cet1` and `lev_t1` contain
no add-on loop at all). -/
theorem leverage_constraints_formula (x : List ℚ) (df : RefTable) (mins : List ℚ)
    (hl : x.length ≤ df.b1_leverage.length)
    (h1 : x.length ≤ df.CET1_resource.length)
    (h2 : x.length ≤ df.T1_resource.length)
    (hm : 2 ≤ mins.length) :
    lev_cet1 x df mins = some (constraint_spec x df.b1_leverage df.CET1_resource
        (mins.getD 0 0)) ∧
    lev_t1 x df mins = some (constraint_spec x df.b1_leverage df.T1_resource
        (mins.getD 1 0)) :=
  ⟨lev_cet1_closed x df mins hl h1 (lt_of_lt_of_le (by norm_num) hm),
   lev_t1_closed x df mins hl h2 (lt_of_lt_of_le (by norm_num) hm)⟩

/-- Witness for C2 at a concrete two-line-item input. -/
theorem leverage_constraints_formula_witness :
    lev_cet1 [100, 200] wDf wMins = some (constraint_spec [100, 200] wDf.b1_leverage
        wDf.CET1_resource (wMins.getD 0 0)) ∧
    lev_t1 [100, 200] wDf wMins = some (constraint_spec [100, 200] wDf.b1_leverage
        wDf.T1_resource (wMins.getD 1 0)) :=
  leverage_constraints_formula [100, 200] wDf wMins (by decide) (by decide) (by decide)
    (by decide)

/-! ### Failure behavior of the loop shapes -/

lemma gsibShape_none (x gcol : List ℚ) (body : ℚ → ℕ → Option ℚ)
    (h : gcol.length < x.length) :
    ((loopSum x.length fun i =>
        (x.get? i).bind fun xi => (gcol.get? i).bind fun ci => some (xi * ci)).bind
      fun gsib_addon => loopSum x.length (body gsib_addon)) = none := by
  have h1 : (loopSum x.length fun i =>
      (x.get? i).bind fun xi => (gcol.get? i).bind fun ci => some (xi * ci)) = none := by
    apply loopSum_eq_none
    refine ⟨gcol.length, h, ?_⟩
    rw [get?_eq_some_getD h, get?_eq_none_of_le (le_refl _)]
    rfl
  rw [h1]
  rfl

lemma levShape_none (x lcol rescol mins : List ℚ) (idx : ℕ)
    (h : lcol.length < x.length) :
    (loopSum x.length fun i =>
      (mins.get? idx).bind fun m => (lcol.get? i).bind fun bi =>
        (x.get? i).bind fun xi => (rescol.get? i).bind fun ri =>
          some (-(m * bi * xi) + ri * xi)) = none := by
  apply loopSum_eq_none
  refine ⟨lcol.length, h, ?_⟩
  rw [get?_eq_none_of_le (le_refl _)]
  cases mins.get? idx with
  | none => rfl
  | some m => rfl

/-- C3 counterexample: a one-entry balance vector against the two-row
reference table is not rejected — `srwa_cet1` silently evaluates over
the first line item only and returns a value. -/
theorem short_balance_not_rejected :
    [(1 : ℚ)].length ≠ exDf.s_rwa.length ∧ srwa_cet1 [1] exDf [0, 0, 0, 0] = some 1 := by
  constructor
  · decide
  · norm_num [srwa_cet1, exDf, loopSum, List.get?]

/-- C3 amended: a balance vector longer than a used reference-table
column makes each constraint function abort with no value (the index
error of the source); a balance vector no longer than every used column
(with enough threshold entries) is evaluated successfully — so a
shorter balance vector is silently evaluated over its first `len x`
line items rather than rejected. -/
theorem length_mismatch_behavior (x : List ℚ) (df : RefTable) (mins : List ℚ) :
    (df.cet1_contr_per_balance.length < x.length →
      srwa_cet1 x df mins = none ∧ srwa_t1 x df mins = none ∧
      srwa_tc x df mins = none ∧ srwa_tlac x df mins = none ∧
      arwa_cet1 x df mins = none ∧ arwa_t1 x df mins = none ∧
      arwa_tc x df mins = none ∧ arwa_tlac x df mins = none) ∧
    (df.b1_leverage.length < x.length →
      lev_cet1 x df mins = none ∧ lev_t1 x df mins = none) ∧
    (x.length ≤ df.cet1_contr_per_balance.length → x.length ≤ df.s_rwa.length →
      x.length ≤ df.a_rwa.length → x.length ≤ df.CET1_resource.length →
      x.length ≤ df.T1_resource.length → x.length ≤ df.total_capital_resource.length →
      x.length ≤ df.TLAC_resource.length → x.length ≤ df.b1_leverage.length →
      4 ≤ mins.length →
      (srwa_cet1 x df mins).isSome = true ∧ (srwa_t1 x df mins).isSome = true ∧
      (srwa_tc x df mins).isSome = true ∧ (srwa_tlac x df mins).isSome = true ∧
      (arwa_cet1 x df mins).isSome = true ∧ (arwa_t1 x df mins).isSome = true ∧
      (arwa_tc x df mins).isSome = true ∧ (arwa_tlac x df mins).isSome = true ∧
      (lev_cet1 x df mins).isSome = true ∧ (lev_t1 x df mins).isSome = true) := by
  refine ⟨fun h => ?_, fun h => ?_, fun hg hs ha h1 h2 h3 h4 hl hm => ?_⟩
  · exact ⟨gsibShape_none x df.cet1_contr_per_balance _ h,
      gsibShape_none x df.cet1_contr_per_balance _ h,
      gsibShape_none x df.cet1_contr_per_balance _ h,
      gsibShape_none x df.cet1_contr_per_balance _ h,
      gsibShape_none x df.cet1_contr_per_balance _ h,
      gsibShape_none x df.cet1_contr_per_balance _ h,
      gsibShape_none x df.cet1_contr_per_balance _ h,
      gsibShape_none x df.cet1_contr_per_balance _ h⟩
  · exact ⟨levShape_none x df.b1_leverage df.CET1_resource mins 0 h,
      levShape_none x df.b1_leverage df.T1_resource mins 1 h⟩
  · have m0 : 0 < mins.length := lt_of_lt_of_le (by norm_num) hm
    have m1 : 1 < mins.length := lt_of_lt_of_le (by norm_num) hm
    have m2 : 2 < mins.length := lt_of_lt_of_le (by norm_num) hm
    have m3 : 3 < mins.length := lt_of_lt_of_le (by norm_num) hm
    exact ⟨by rw [srwa_cet1_closed x df mins hg hs h1 m0]; rfl,
      by rw [srwa_t1_closed x df mins hg hs h2 m1]; rfl,
      by rw [srwa_tc_closed x df mins hg hs h3 m2]; rfl,
      by rw [srwa_tlac_closed x df mins hg hs h4 m3]; rfl,
      by rw [arwa_cet1_closed x df mins hg ha h1 m0]; rfl,
      by rw [arwa_t1_closed x df mins hg ha h2 m1]; rfl,
      by rw [arwa_tc_closed x df mins hg ha h3 m2]; rfl,
      by rw [arwa_tlac_closed x df mins hg ha h4 m3]; rfl,
      by rw [lev_cet1_closed x df mins hl h1 m0]; rfl,
      by rw [lev_t1_closed x df mins hl h2 m1]; rfl⟩

/-- Witness for the amended C3: a three-entry balance vector against
the two-row table fails on every function; a one-entry balance vector
is silently evaluated by every function. -/
theorem length_mismatch_behavior_witness :
    (srwa_cet1 [1, 1, 1] exDf wMins = none ∧ srwa_t1 [1, 1, 1] exDf wMins = none ∧
      srwa_tc [1, 1, 1] exDf wMins = none ∧ srwa_tlac [1, 1, 1] exDf wMins = none ∧
      arwa_cet1 [1, 1, 1] exDf wMins = none ∧ arwa_t1 [1, 1, 1] exDf wMins = none ∧
      arwa_tc [1, 1, 1] exDf wMins = none ∧ arwa_tlac [1, 1, 1] exDf wMins = none) ∧
    (lev_cet1 [1, 1, 1] exDf wMins = none ∧ lev_t1 [1, 1, 1] exDf wMins = none) ∧
    ((srwa_cet1 [1] exDf wMins).isSome = true ∧ (srwa_t1 [1] exDf wMins).isSome = true ∧
      (srwa_tc [1] exDf wMins).isSome = true ∧ (srwa_tlac [1] exDf wMins).isSome = true ∧
      (arwa_cet1 [1] exDf wMins).isSome = true ∧ (arwa_t1 [1] exDf wMins).isSome = true ∧
      (arwa_tc [1] exDf wMins).isSome = true ∧ (arwa_tlac [1] exDf wMins).isSome = true ∧
      (lev_cet1 [1] exDf wMins).isSome = true ∧ (lev_t1 [1] exDf wMins).isSome = true) :=
  ⟨(length_mismatch_behavior [1, 1, 1] exDf wMins).1 (by decide),
   (length_mismatch_behavior [1, 1, 1] exDf wMins).2.1 (by decide),
   (length_mismatch_behavior [1] exDf wMins).2.2 (by decide) (by decide) (by decide)
     (by decide) (by decide) (by decide) (by decide) (by decide) (by decide)⟩

/-- C4: the spec's worked scenario: balances [100, 200], standardized
RWA weights [1/2, 1], CET1 resource weights [1, 0], zero GSIB
contributions, threshold entry 0 equal to 0.045 — `srwa_cet1` returns
exactly 88.75 = 355/4 = 100 − 0.045·250. -/
theorem srwa_cet1_concrete_scenario :
    srwa_cet1 [100, 200] exDf [9/200, 0, 0, 0] = some (355/4) := by
  norm_num [srwa_cet1, exDf, loopSum, List.get?]

/-! ### Zero balances -/

lemma gsibShape_getD_zero (x gcol rcol rescol mins : List ℚ) (idx : ℕ)
    (hx : ∀ v ∈ x, v = 0) :
    (((loopSum x.length fun i =>
        (x.get? i).bind fun xi => (gcol.get? i).bind fun ci => some (xi * ci)).bind
      fun gsib_addon =>
        loopSum x.length fun i =>
          (mins.get? idx).bind fun m => (rcol.get? i).bind fun si =>
            (x.get? i).bind fun xi => (rescol.get? i).bind fun ri =>
              some (-((m + gsib_addon) * si * xi) + ri * xi)).getD 0) = 0 := by
  cases hA : (loopSum x.length fun i =>
      (x.get? i).bind fun xi => (gcol.get? i).bind fun ci => some (xi * ci)) with
  | none => rfl
  | some A =>
    rw [Option.some_bind]
    cases hr : (loopSum x.length fun i =>
        (mins.get? idx).bind fun m => (rcol.get? i).bind fun si =>
          (x.get? i).bind fun xi => (rescol.get? i).bind fun ri =>
            some (-((m + A) * si * xi) + ri * xi)) with
    | none => rfl
    | some r =>
      have hz : ∀ i < x.length, ∀ v,
          ((mins.get? idx).bind fun m => (rcol.get? i).bind fun si =>
            (x.get? i).bind fun xi => (rescol.get? i).bind fun ri =>
              some (-((m + A) * si * xi) + ri * xi)) = some v → v = 0 := by
        intro i hi v hv
        simp only [Option.bind_eq_some] at hv
        obtain ⟨m, hm, si, hsi, xi, hxi, ri, hri, hval⟩ := hv
        have hx0 : xi = 0 := hx xi (List.get?_mem hxi)
        injection hval with hval
        rw [← hval, hx0]; ring
      have hr0 : r = 0 := loopSum_zero_of x.length _ hz r hr
      simp [hr0]

lemma levShape_getD_zero (x lcol rescol mins : List ℚ) (idx : ℕ)
    (hx : ∀ v ∈ x, v = 0) :
    ((loopSum x.length fun i =>
      (mins.get? idx).bind fun m => (lcol.get? i).bind fun bi =>
        (x.get? i).bind fun xi => (rescol.get? i).bind fun ri =>
          some (-(m * bi * xi) + ri * xi)).getD 0) = 0 := by
  cases hr : (loopSum x.length fun i =>
      (mins.get? idx).bind fun m => (lcol.get? i).bind fun bi =>
        (x.get? i).bind fun xi => (rescol.get? i).bind fun ri =>
          some (-(m * bi * xi) + ri * xi)) with
  | none => rfl
  | some r =>
    have hz : ∀ i < x.length, ∀ v,
        ((mins.get? idx).bind fun m => (lcol.get? i).bind fun bi =>
          (x.get? i).bind fun xi => (rescol.get? i).bind fun ri =>
            some (-(m * bi * xi) + ri * xi)) = some v → v = 0 := by
      intro i hi v hv
      simp only [Option.bind_eq_some] at hv
      obtain ⟨m, hm, bi, hbi, xi, hxi, ri, hri, hval⟩ := hv
      have hx0 : xi = 0 := hx xi (List.get?_mem hxi)
      injection hval with hval
      rw [← hval, hx0]; ring
    have hr0 : r = 0 := loopSum_zero_of x.length _ hz r hr
    simp [hr0]

/-- C5: on a balance vector whose entries are all zero, each of the ten
constraint functions evaluates to exactly 0 (whenever it returns a
value at all), regardless of the thresholds and of every weight
column. -/
theorem zero_balances_zero_constraints (x : List ℚ) (df : RefTable) (mins : List ℚ)
    (hx : ∀ v ∈ x, v = 0) :
    (srwa_cet1 x df mins).getD 0 = 0 ∧ (srwa_t1 x df mins).getD 0 = 0 ∧
    (srwa_tc x df mins).getD 0 = 0 ∧ (srwa_tlac x df mins).getD 0 = 0 ∧
    (arwa_cet1 x df mins).getD 0 = 0 ∧ (arwa_t1 x df mins).getD 0 = 0 ∧
    (arwa_tc x df mins).getD 0 = 0 ∧ (arwa_tlac x df mins).getD 0 = 0 ∧
    (lev_cet1 x df mins).getD 0 = 0 ∧ (lev_t1 x df mins).getD 0 = 0 :=
  ⟨gsibShape_getD_zero x df.cet1_contr_per_balance df.s_rwa df.CET1_resource mins 0 hx,
   gsibShape_getD_zero x df.cet1_contr_per_balance df.s_rwa df.T1_resource mins 1 hx,
   gsibShape_getD_zero x df.cet1_contr_per_balance df.s_rwa df.total_capital_resource mins 2 hx,
   gsibShape_getD_zero x df.cet1_contr_per_balance df.s_rwa df.TLAC_resource mins 3 hx,
   gsibShape_getD_zero x df.cet1_contr_per_balance df.a_rwa df.CET1_resource mins 0 hx,
   gsibShape_getD_zero x df.cet1_contr_per_balance df.a_rwa df.T1_resource mins 1 hx,
   gsibShape_getD_zero x df.cet1_contr_per_balance df.a_rwa df.total_capital_resource mins 2 hx,
   gsibShape_getD_zero x df.cet1_contr_per_balance df.a_rwa df.TLAC_resource mins 3 hx,
   levShape_getD_zero x df.b1_leverage df.CET1_resource mins 0 hx,
   levShape_getD_zero x df.b1_leverage df.T1_resource mins 1 hx⟩

/-- Witness for C5 at the all-zero two-entry balance vector. -/
theorem zero_balances_zero_constraints_witness :
    (srwa_cet1 [0, 0] wDf wMins).getD 0 = 0 ∧ (srwa_t1 [0, 0] wDf wMins).getD 0 = 0 ∧
    (srwa_tc [0, 0] wDf wMins).getD 0 = 0 ∧ (srwa_tlac [0, 0] wDf wMins).getD 0 = 0 ∧
    (arwa_cet1 [0, 0] wDf wMins).getD 0 = 0 ∧ (arwa_t1 [0, 0] wDf wMins).getD 0 = 0 ∧
    (arwa_tc [0, 0] wDf wMins).getD 0 = 0 ∧ (arwa_tlac [0, 0] wDf wMins).getD 0 = 0 ∧
    (lev_cet1 [0, 0] wDf wMins).getD 0 = 0 ∧ (lev_t1 [0, 0] wDf wMins).getD 0 = 0 :=
  zero_balances_zero_constraints [0, 0] wDf wMins (by decide)

/-! ### Scaling behavior -/

lemma levShape_scale (k : ℚ) (x lcol rescol mins : List ℚ) (idx : ℕ) :
    (loopSum (x.map fun v => k * v).length fun i =>
      (mins.get? idx).bind fun m => (lcol.get? i).bind fun bi =>
        ((x.map fun v => k * v).get? i).bind fun xi => (rescol.get? i).bind fun ri =>
          some (-(m * bi * xi) + ri * xi))
    = ((loopSum x.length fun i =>
        (mins.get? idx).bind fun m => (lcol.get? i).bind fun bi =>
          (x.get? i).bind fun xi => (rescol.get? i).bind fun ri =>
            some (-(m * bi * xi) + ri * xi)).map fun v => k * v) := by
  rw [List.length_map]
  apply loopSum_map
  intro i hi
  rw [get?_map_mul]
  cases mins.get? idx with
  | none => rfl
  | some m =>
    cases lcol.get? i with
    | none => rfl
    | some bi =>
      cases x.get? i with
      | none => rfl
      | some xi =>
        cases rescol.get? i with
        | none => rfl
        | some ri =>
          simp only [Option.map_some', Option.some_bind]
          exact congrArg some (by ring)

/-- C6: the leverage constraints, which carry no GSIB add-on, are
homogeneous of degree one in the balance vector: scaling every balance
by `k` scales the returned value by `k` (and preserves failure). -/
theorem leverage_linear_scaling (k : ℚ) (x : List ℚ) (df : RefTable) (mins : List ℚ) :
    lev_cet1 (x.map fun v => k * v) df mins
        = (lev_cet1 x df mins).map (fun v => k * v) ∧
    lev_t1 (x.map fun v => k * v) df mins
        = (lev_t1 x df mins).map (fun v => k * v) :=
  ⟨levShape_scale k x df.b1_leverage df.CET1_resource mins 0,
   levShape_scale k x df.b1_leverage df.T1_resource mins 1⟩

/-- Weighted exposure `Σ_i col[i]*x[i]` of a balance vector against a
weight column. -/
def exposure_spec (x col : List ℚ) : ℚ :=
  ∑ i ∈ Finset.range x.length, col.getD i 0 * x.getD i 0

lemma constraint_spec_decomp (x risk res : List ℚ) (t : ℚ) :
    constraint_spec x risk res t = exposure_spec x res - t * exposure_spec x risk := by
  unfold constraint_spec exposure_spec
  rw [Finset.mul_sum, ← Finset.sum_sub_distrib]
  exact Finset.sum_congr rfl fun i _ => by ring

lemma gsib_addon_spec_scale (k : ℚ) (x : List ℚ) (df : RefTable) :
    gsib_addon_spec (x.map fun v => k * v) df = k * gsib_addon_spec x df := by
  unfold gsib_addon_spec
  rw [List.length_map, Finset.mul_sum]
  exact Finset.sum_congr rfl fun i _ => by rw [getD_map_mul]; ring

lemma constraint_spec_scale (k : ℚ) (x risk res : List ℚ) (t : ℚ) :
    constraint_spec (x.map fun v => k * v) risk res t = k * constraint_spec x risk res t := by
  unfold constraint_spec
  rw [List.length_map, Finset.mul_sum]
  exact Finset.sum_congr rfl fun i _ => by rw [getD_map_mul]; ring

lemma constraint_scale_two_ne (x risk res : List ℚ) (m G : ℚ) (hG : G ≠ 0)
    (hS : exposure_spec x risk ≠ 0) :
    constraint_spec (x.map fun v => 2 * v) risk res (m + 2 * G)
      ≠ 2 * constraint_spec x risk res (m + G) := by
  rw [constraint_spec_scale, constraint_spec_decomp x risk res (m + 2 * G),
    constraint_spec_decomp x risk res (m + G)]
  intro h
  have hGS : G * exposure_spec x risk = 0 := by linear_combination (-1/2 : ℚ) * h
  exact mul_ne_zero hG hS hGS

/-- C7 counterexample: with the zero GSIB-contribution column of
`exDf`, doubling the balances exactly doubles `srwa_cet1`, refuting
the claim that scaling by 2 never doubles a GSIB-bearing result. -/
theorem gsib_doubling_at_instance :
    srwa_cet1 ([1].map fun v => (2 : ℚ) * v) exDf [9/200, 0, 0, 0]
      = (srwa_cet1 [1] exDf [9/200, 0, 0, 0]).map (fun v => 2 * v) := by
  norm_num [srwa_cet1, exDf, loopSum, List.get?]

/-- C7 amended: for each GSIB-bearing function, scaling the balances by
2 fails to double the result whenever the GSIB add-on and the relevant
risk-weighted exposure are both nonzero (then the add-on term is
quadratic in the scale); with a zero add-on or zero exposure the
doubling does hold. -/
theorem gsib_scaling_not_linear (x : List ℚ) (df : RefTable) (mins : List ℚ)
    (hg : x.length ≤ df.cet1_contr_per_balance.length)
    (hs : x.length ≤ df.s_rwa.length)
    (ha : x.length ≤ df.a_rwa.length)
    (h1 : x.length ≤ df.CET1_resource.length)
    (h2 : x.length ≤ df.T1_resource.length)
    (h3 : x.length ≤ df.total_capital_resource.length)
    (h4 : x.length ≤ df.TLAC_resource.length)
    (hm : 4 ≤ mins.length)
    (hG : gsib_addon_spec x df ≠ 0)
    (hS : exposure_spec x df.s_rwa ≠ 0)
    (hA : exposure_spec x df.a_rwa ≠ 0) :
    srwa_cet1 (x.map fun v => 2 * v) df mins
        ≠ (srwa_cet1 x df mins).map (fun v => 2 * v) ∧
    srwa_t1 (x.map fun v => 2 * v) df mins
        ≠ (srwa_t1 x df mins).map (fun v => 2 * v) ∧
    srwa_tc (x.map fun v => 2 * v) df mins
        ≠ (srwa_tc x df mins).map (fun v => 2 * v) ∧
    srwa_tlac (x.map fun v => 2 * v) df mins
        ≠ (srwa_tlac x df mins).map (fun v => 2 * v) ∧
    arwa_cet1 (x.map fun v => 2 * v) df mins
        ≠ (arwa_cet1 x df mins).map (fun v => 2 * v) ∧
    arwa_t1 (x.map fun v => 2 * v) df mins
        ≠ (arwa_t1 x df mins).map (fun v => 2 * v) ∧
    arwa_tc (x.map fun v => 2 * v) df mins
        ≠ (arwa_tc x df mins).map (fun v => 2 * v) ∧
    arwa_tlac (x.map fun v => 2 * v) df mins
        ≠ (arwa_tlac x df mins).map (fun v => 2 * v) := by
  have m0 : 0 < mins.length := lt_of_lt_of_le (by norm_num) hm
  have m1 : 1 < mins.length := lt_of_lt_of_le (by norm_num) hm
  have m2 : 2 < mins.length := lt_of_lt_of_le (by norm_num) hm
  have m3 : 3 < mins.length := lt_of_lt_of_le (by norm_num) hm
  have lg : (x.map fun v => 2 * v).length ≤ df.cet1_contr_per_balance.length := by
    rw [List.length_map]; exact hg
  have ls : (x.map fun v => 2 * v).length ≤ df.s_rwa.length := by
    rw [List.length_map]; exact hs
  have la : (x.map fun v => 2 * v).length ≤ df.a_rwa.length := by
    rw [List.length_map]; exact ha
  have l1 : (x.map fun v => 2 * v).length ≤ df.CET1_resource.length := by
    rw [List.length_map]; exact h1
  have l2 : (x.map fun v => 2 * v).length ≤ df.T1_resource.length := by
    rw [List.length_map]; exact h2
  have l3 : (x.map fun v => 2 * v).length ≤ df.total_capital_resource.length := by
    rw [List.length_map]; exact h3
  have l4 : (x.map fun v => 2 * v).length ≤ df.TLAC_resource.length := by
    rw [List.length_map]; exact h4
  refine ⟨?_, ?_, ?_, ?_, ?_, ?_, ?_, ?_⟩
  · rw [srwa_cet1_closed _ df mins lg ls l1 m0, gsib_addon_spec_scale,
      srwa_cet1_closed x df mins hg hs h1 m0]
    simp only [Option.map_some', Ne, Option.some.injEq]
    exact constraint_scale_two_ne x df.s_rwa df.CET1_resource (mins.getD 0 0)
      (gsib_addon_spec x df) hG hS
  · rw [srwa_t1_closed _ df mins lg ls l2 m1, gsib_addon_spec_scale,
      srwa_t1_closed x df mins hg hs h2 m1]
    simp only [Option.map_some', Ne, Option.some.injEq]
    exact constraint_scale_two_ne x df.s_rwa df.T1_resource (mins.getD 1 0)
      (gsib_addon_spec x df) hG hS
  · rw [srwa_tc_closed _ df mins lg ls l3 m2, gsib_addon_spec_scale,
      srwa_tc_closed x df mins hg hs h3 m2]
    simp only [Option.map_some', Ne, Option.some.injEq]
    exact constraint_scale_two_ne x df.s_rwa df.total_capital_resource (mins.getD 2 0)
      (gsib_addon_spec x df) hG hS
  · rw [srwa_tlac_closed _ df mins lg ls l4 m3, gsib_addon_spec_scale,
      srwa_tlac_closed x df mins hg hs h4 m3]
    simp only [Option.map_some', Ne, Option.some.injEq]
    exact constraint_scale_two_ne x df.s_rwa df.TLAC_resource (mins.getD 3 0)
      (gsib_addon_spec x df) hG hS
  · rw [arwa_cet1_closed _ df mins lg la l1 m0, gsib_addon_spec_scale,
      arwa_cet1_closed x df mins hg ha h1 m0]
    simp only [Option.map_some', Ne, Option.some.injEq]
    exact constraint_scale_two_ne x df.a_rwa df.CET1_resource (mins.getD 0 0)
      (gsib_addon_spec x df) hG hA
  · rw [arwa_t1_closed _ df mins lg la l2 m1, gsib_addon_spec_scale,
      arwa_t1_closed x df mins hg ha h2 m1]
    simp only [Option.map_some', Ne, Option.some.injEq]
    exact constraint_scale_two_ne x df.a_rwa df.T1_resource (mins.getD 1 0)
      (gsib_addon_spec x df) hG hA
  · rw [arwa_tc_closed _ df mins lg la l3 m2, gsib_addon_spec_scale,
      arwa_tc_closed x df mins hg ha h3 m2]
    simp only [Option.map_some', Ne, Option.some.injEq]
    exact constraint_scale_two_ne x df.a_rwa df.total_capital_resource (mins.getD 2 0)
      (gsib_addon_spec x df) hG hA
  · rw [arwa_tlac_closed _ df mins lg la l4 m3, gsib_addon_spec_scale,
      arwa_tlac_closed x df mins hg ha h4 m3]
    simp only [Option.map_some', Ne, Option.some.injEq]
    exact constraint_scale_two_ne x df.a_rwa df.TLAC_resource (mins.getD 3 0)
      (gsib_addon_spec x df) hG hA

/-- Witness for the amended C7 at a concrete input with nonzero GSIB
add-on and nonzero exposures. -/
theorem gsib_scaling_not_linear_witness :
    srwa_cet1 ([100, 200].map fun v => 2 * v) wDf wMins
        ≠ (srwa_cet1 [100, 200] wDf wMins).map (fun v => 2 * v) ∧
    srwa_t1 ([100, 200].map fun v => 2 * v) wDf wMins
        ≠ (srwa_t1 [100, 200] wDf wMins).map (fun v => 2 * v) ∧
    srwa_tc ([100, 200].map fun v => 2 * v) wDf wMins
        ≠ (srwa_tc [100, 200] wDf wMins).map (fun v => 2 * v) ∧
    srwa_tlac ([100, 200].map fun v => 2 * v) wDf wMins
        ≠ (srwa_tlac [100, 200] wDf wMins).map (fun v => 2 * v) ∧
    arwa_cet1 ([100, 200].map fun v => 2 * v) wDf wMins
        ≠ (arwa_cet1 [100, 200] wDf wMins).map (fun v => 2 * v) ∧
    arwa_t1 ([100, 200].map fun v => 2 * v) wDf wMins
        ≠ (arwa_t1 [100, 200] wDf wMins).map (fun v => 2 * v) ∧
    arwa_tc ([100, 200].map fun v => 2 * v) wDf wMins
        ≠ (arwa_tc [100, 200] wDf wMins).map (fun v => 2 * v) ∧
    arwa_tlac ([100, 200].map fun v => 2 * v) wDf wMins
        ≠ (arwa_tlac [100, 200] wDf wMins).map (fun v => 2 * v) :=
  gsib_scaling_not_linear [100, 200] wDf wMins (by decide) (by decide) (by decide)
    (by decide) (by decide) (by decide) (by decide) (by decide)
    (by norm_num [gsib_addon_spec, wDf, Finset.sum_range_succ])
    (by norm_num [exposure_spec, wDf, Finset.sum_range_succ])
    (by norm_num [exposure_spec, wDf, Finset.sum_range_succ])

/-! ### Effect of the GSIB contribution column -/

/-- Table `df` with its GSIB contribution column replaced by an all-zero
column of the same length. -/
def zeroGsib (df : RefTable) : RefTable :=
  ⟨List.replicate df.cet1_contr_per_balance.length 0, df.s_rwa, df.a_rwa,
   df.CET1_resource, df.T1_resource, df.total_capital_resource, df.TLAC_resource,
   df.b1_leverage⟩

lemma getD_replicate_zero (n i : ℕ) : (List.replicate n (0 : ℚ)).getD i 0 = 0 := by
  induction n generalizing i with
  | zero => simp [List.getD]
  | succ m ih =>
    cases i with
    | zero => rfl
    | succ j => simp [List.replicate, List.getD, ih j]

lemma gsib_addon_spec_zeroGsib (x : List ℚ) (df : RefTable) :
    gsib_addon_spec x (zeroGsib df) = 0 := by
  unfold gsib_addon_spec zeroGsib
  simp [getD_replicate_zero]

lemma gsib_addon_spec_pos (x : List ℚ) (df : RefTable) (hx : ∀ v ∈ x, 0 < v)
    (hg : ∀ i < x.length, 0 ≤ df.cet1_contr_per_balance.getD i 0) (j : ℕ)
    (hj : j < x.length) (hgj : 0 < df.cet1_contr_per_balance.getD j 0) :
    0 < gsib_addon_spec x df := by
  unfold gsib_addon_spec
  apply Finset.sum_pos'
  · intro i hi
    exact mul_nonneg (le_of_lt (hx _ (getD_mem (Finset.mem_range.mp hi))))
      (hg i (Finset.mem_range.mp hi))
  · exact ⟨j, Finset.mem_range.mpr hj, mul_pos (hx _ (getD_mem hj)) hgj⟩

lemma exposure_spec_pos (x col : List ℚ) (hx : ∀ v ∈ x, 0 < v)
    (hcol : ∀ i < x.length, 0 ≤ col.getD i 0) (j : ℕ) (hj : j < x.length)
    (hcj : 0 < col.getD j 0) : 0 < exposure_spec x col := by
  unfold exposure_spec
  apply Finset.sum_pos'
  · intro i hi
    exact mul_nonneg (hcol i (Finset.mem_range.mp hi))
      (le_of_lt (hx _ (getD_mem (Finset.mem_range.mp hi))))
  · exact ⟨j, Finset.mem_range.mpr hj, mul_pos hcj (hx _ (getD_mem hj))⟩

lemma constraint_spec_lt (x risk res : List ℚ) (m G : ℚ) (hG : 0 < G)
    (hS : 0 < exposure_spec x risk) :
    constraint_spec x risk res (m + G) < constraint_spec x risk res m := by
  rw [constraint_spec_decomp, constraint_spec_decomp]
  have h2 : (m + G) * exposure_spec x risk
      = m * exposure_spec x risk + G * exposure_spec x risk := by ring
  rw [h2]
  linarith [mul_pos hG hS]

/-- One-line-item tables refuting C8 as stated: `c8Df` has a nonzero
GSIB contribution entry, `c8Df0` the all-zero column; both have zero
risk weights, so the add-on changes nothing. -/
def c8Df : RefTable := ⟨[1], [0], [0], [1], [1], [1], [1], [1]⟩

/-- The zero-GSIB companion of `c8Df`. -/
def c8Df0 : RefTable := ⟨[0], [0], [0], [1], [1], [1], [1], [1]⟩

/-- C8 counterexample: over the all-positive balance vector [1], a GSIB
contribution column with a nonzero entry leaves `srwa_cet1` unchanged
(both evaluations give 1) when the risk-weight column is zero, so the
claimed strict decrease fails. -/
theorem gsib_addon_no_strict_decrease_instance :
    (∀ v ∈ [(1 : ℚ)], 0 < v) ∧ c8Df.cet1_contr_per_balance.getD 0 0 ≠ 0 ∧
    srwa_cet1 [1] c8Df wMins = some 1 ∧ srwa_cet1 [1] c8Df0 wMins = some 1 := by
  refine ⟨by decide, by decide, ?_, ?_⟩
  · norm_num [srwa_cet1, c8Df, loopSum, List.get?, wMins]
  · norm_num [srwa_cet1, c8Df0, loopSum, List.get?, wMins]

/-- C8 amended: for all-positive balances, a GSIB contribution column
that is nonnegative over the line items with some strictly positive
entry strictly decreases each GSIB-bearing constraint relative to the
all-zero contribution column, provided the relevant risk-weight column
is also nonnegative with some strictly positive entry (the add-on then
only tightens the constraint). -/
theorem gsib_addon_tightens (x : List ℚ) (df : RefTable) (mins : List ℚ)
    (hg : x.length ≤ df.cet1_contr_per_balance.length)
    (hs : x.length ≤ df.s_rwa.length)
    (ha : x.length ≤ df.a_rwa.length)
    (h1 : x.length ≤ df.CET1_resource.length)
    (h2 : x.length ≤ df.T1_resource.length)
    (h3 : x.length ≤ df.total_capital_resource.length)
    (h4 : x.length ≤ df.TLAC_resource.length)
    (hm : 4 ≤ mins.length)
    (hx : ∀ v ∈ x, 0 < v)
    (hgnn : ∀ i < x.length, 0 ≤ df.cet1_contr_per_balance.getD i 0)
    (jg : ℕ) (hjg : jg < x.length) (hgj : 0 < df.cet1_contr_per_balance.getD jg 0)
    (hsnn : ∀ i < x.length, 0 ≤ df.s_rwa.getD i 0)
    (js : ℕ) (hjs : js < x.length) (hsj : 0 < df.s_rwa.getD js 0)
    (hann : ∀ i < x.length, 0 ≤ df.a_rwa.getD i 0)
    (ja : ℕ) (hja : ja < x.length) (haj : 0 < df.a_rwa.getD ja 0) :
    (srwa_cet1 x df mins).getD 0 < (srwa_cet1 x (zeroGsib df) mins).getD 0 ∧
    (srwa_t1 x df mins).getD 0 < (srwa_t1 x (zeroGsib df) mins).getD 0 ∧
    (srwa_tc x df mins).getD 0 < (srwa_tc x (zeroGsib df) mins).getD 0 ∧
    (srwa_tlac x df mins).getD 0 < (srwa_tlac x (zeroGsib df) mins).getD 0 ∧
    (arwa_cet1 x df mins).getD 0 < (arwa_cet1 x (zeroGsib df) mins).getD 0 ∧
    (arwa_t1 x df mins).getD 0 < (arwa_t1 x (zeroGsib df) mins).getD 0 ∧
    (arwa_tc x df mins).getD 0 < (arwa_tc x (zeroGsib df) mins).getD 0 ∧
    (arwa_tlac x df mins).getD 0 < (arwa_tlac x (zeroGsib df) mins).getD 0 := by
  have m0 : 0 < mins.length := lt_of_lt_of_le (by norm_num) hm
  have m1 : 1 < mins.length := lt_of_lt_of_le (by norm_num) hm
  have m2 : 2 < mins.length := lt_of_lt_of_le (by norm_num) hm
  have m3 : 3 < mins.length := lt_of_lt_of_le (by norm_num) hm
  have hg0 : x.length ≤ (zeroGsib df).cet1_contr_per_balance.length := by
    simpa [zeroGsib] using hg
  have hG : 0 < gsib_addon_spec x df := gsib_addon_spec_pos x df hx hgnn jg hjg hgj
  have hSs : 0 < exposure_spec x df.s_rwa := exposure_spec_pos x df.s_rwa hx hsnn js hjs hsj
  have hSa : 0 < exposure_spec x df.a_rwa := exposure_spec_pos x df.a_rwa hx hann ja hja haj
  refine ⟨?_, ?_, ?_, ?_, ?_, ?_, ?_, ?_⟩
  · have e2 : srwa_cet1 x (zeroGsib df) mins
        = some (constraint_spec x df.s_rwa df.CET1_resource (mins.getD 0 0)) := by
      rw [srwa_cet1_closed x (zeroGsib df) mins hg0 hs h1 m0, gsib_addon_spec_zeroGsib,
        add_zero]
      rfl
    rw [srwa_cet1_closed x df mins hg hs h1 m0, e2, Option.getD_some, Option.getD_some]
    exact constraint_spec_lt x df.s_rwa df.CET1_resource (mins.getD 0 0)
      (gsib_addon_spec x df) hG hSs
  · have e2 : srwa_t1 x (zeroGsib df) mins
        = some (constraint_spec x df.s_rwa df.T1_resource (mins.getD 1 0)) := by
      rw [srwa_t1_closed x (zeroGsib df) mins hg0 hs h2 m1, gsib_addon_spec_zeroGsib,
        add_zero]
      rfl
    rw [srwa_t1_closed x df mins hg hs h2 m1, e2, Option.getD_some, Option.getD_some]
    exact constraint_spec_lt x df.s_rwa df.T1_resource (mins.getD 1 0)
      (gsib_addon_spec x df) hG hSs
  · have e2 : srwa_tc x (zeroGsib df) mins
        = some (constraint_spec x df.s_rwa df.total_capital_resource (mins.getD 2 0)) := by
      rw [srwa_tc_closed x (zeroGsib df) mins hg0 hs h3 m2, gsib_addon_spec_zeroGsib,
        add_zero]
      rfl
    rw [srwa_tc_closed x df mins hg hs h3 m2, e2, Option.getD_some, Option.getD_some]
    exact constraint_spec_lt x df.s_rwa df.total_capital_resource (mins.getD 2 0)
      (gsib_addon_spec x df) hG hSs
  · have e2 : srwa_tlac x (zeroGsib df) mins
        = some (constraint_spec x df.s_rwa df.TLAC_resource (mins.getD 3 0)) := by
      rw [srwa_tlac_closed x (zeroGsib df) mins hg0 hs h4 m3, gsib_addon_spec_zeroGsib,
        add_zero]
      rfl
    rw [srwa_tlac_closed x df mins hg hs h4 m3, e2, Option.getD_some, Option.getD_some]
    exact constraint_spec_lt x df.s_rwa df.TLAC_resource (mins.getD 3 0)
      (gsib_addon_spec x df) hG hSs
  · have e2 : arwa_cet1 x (zeroGsib df) mins
        = some (constraint_spec x df.a_rwa df.CET1_resource (mins.getD 0 0)) := by
      rw [arwa_cet1_closed x (zeroGsib df) mins hg0 ha h1 m0, gsib_addon_spec_zeroGsib,
        add_zero]
      rfl
    rw [arwa_cet1_closed x df mins hg ha h1 m0, e2, Option.getD_some, Option.getD_some]
    exact constraint_spec_lt x df.a_rwa df.CET1_resource (mins.getD 0 0)
      (gsib_addon_spec x df) hG hSa
  · have e2 : arwa_t1 x (zeroGsib df) mins
        = some (constraint_spec x df.a_rwa df.T1_resource (mins.getD 1 0)) := by
      rw [arwa_t1_closed x (zeroGsib df) mins hg0 ha h2 m1, gsib_addon_spec_zeroGsib,
        add_zero]
      rfl
    rw [arwa_t1_closed x df mins hg ha h2 m1, e2, Option.getD_some, Option.getD_some]
    exact constraint_spec_lt x df.a_rwa df.T1_resource (mins.getD 1 0)
      (gsib_addon_spec x df) hG hSa
  · have e2 : arwa_tc x (zeroGsib df) mins
        = some (constraint_spec x df.a_rwa df.total_capital_resource (mins.getD 2 0)) := by
      rw [arwa_tc_closed x (zeroGsib df) mins hg0 ha h3 m2, gsib_addon_spec_zeroGsib,
        add_zero]
      rfl
    rw [arwa_tc_closed x df mins hg ha h3 m2, e2, Option.getD_some, Option.getD_some]
    exact constraint_spec_lt x df.a_rwa df.total_capital_resource (mins.getD 2 0)
      (gsib_addon_spec x df) hG hSa
  · have e2 : arwa_tlac x (zeroGsib df) mins
        = some (constraint_spec x df.a_rwa df.TLAC_resource (mins.getD 3 0)) := by
      rw [arwa_tlac_closed x (zeroGsib df) mins hg0 ha h4 m3, gsib_addon_spec_zeroGsib,
        add_zero]
      rfl
    rw [arwa_tlac_closed x df mins hg ha h4 m3, e2, Option.getD_some, Option.getD_some]
    exact constraint_spec_lt x df.a_rwa df.TLAC_resource (mins.getD 3 0)
      (gsib_addon_spec x df) hG hSa

/-- Witness for the amended C8 at a concrete all-positive input. -/
theorem gsib_addon_tightens_witness :
    (srwa_cet1 [100, 200] wDf wMins).getD 0
        < (srwa_cet1 [100, 200] (zeroGsib wDf) wMins).getD 0 ∧
    (srwa_t1 [100, 200] wDf wMins).getD 0
        < (srwa_t1 [100, 200] (zeroGsib wDf) wMins).getD 0 ∧
    (srwa_tc [100, 200] wDf wMins).getD 0
        < (srwa_tc [100, 200] (zeroGsib wDf) wMins).getD 0 ∧
    (srwa_tlac [100, 200] wDf wMins).getD 0
        < (srwa_tlac [100, 200] (zeroGsib wDf) wMins).getD 0 ∧
    (arwa_cet1 [100, 200] wDf wMins).getD 0
        < (arwa_cet1 [100, 200] (zeroGsib wDf) wMins).getD 0 ∧
    (arwa_t1 [100, 200] wDf wMins).getD 0
        < (arwa_t1 [100, 200] (zeroGsib wDf) wMins).getD 0 ∧
    (arwa_tc [100, 200] wDf wMins).getD 0
        < (arwa_tc [100, 200] (zeroGsib wDf) wMins).getD 0 ∧
    (arwa_tlac [100, 200] wDf wMins).getD 0
        < (arwa_tlac [100, 200] (zeroGsib wDf) wMins).getD 0 :=
  gsib_addon_tightens [100, 200] wDf wMins (by decide) (by decide) (by decide)
    (by decide) (by decide) (by decide) (by decide) (by decide)
    (by norm_num)
    (by intro i hi; norm_num at hi; interval_cases i <;> norm_num [wDf])
    0 (by decide) (by norm_num [wDf])
    (by intro i hi; norm_num at hi; interval_cases i <;> norm_num [wDf])
    0 (by decide) (by norm_num [wDf])
    (by intro i hi; norm_num at hi; interval_cases i <;> norm_num [wDf])
    0 (by decide) (by norm_num [wDf])

/-! ### Zero resource columns -/

lemma constraint_spec_zero_res (x risk res : List ℚ) (t : ℚ) (h : ∀ v ∈ res, v = 0) :
    constraint_spec x risk res t
      = -(∑ i ∈ Finset.range x.length, t * risk.getD i 0 * x.getD i 0) := by
  unfold constraint_spec
  rw [← Finset.sum_neg_distrib]
  exact Finset.sum_congr rfl fun i _ => by rw [getD_zero_of_all_zero h]; ring

lemma neg_sum_nonpos (x risk : List ℚ) (t : ℚ) (ht : 0 ≤ t)
    (hx : ∀ v ∈ x, 0 ≤ v) (hr : ∀ i < x.length, 0 ≤ risk.getD i 0) :
    -(∑ i ∈ Finset.range x.length, t * risk.getD i 0 * x.getD i 0) ≤ 0 := by
  rw [neg_nonpos]
  apply Finset.sum_nonneg
  intro i hi
  exact mul_nonneg (mul_nonneg ht (hr i (Finset.mem_range.mp hi)))
    (hx _ (getD_mem (Finset.mem_range.mp hi)))

lemma gsib_addon_spec_nonneg (x : List ℚ) (df : RefTable) (hx : ∀ v ∈ x, 0 ≤ v)
    (hg : ∀ i < x.length, 0 ≤ df.cet1_contr_per_balance.getD i 0) :
    0 ≤ gsib_addon_spec x df := by
  unfold gsib_addon_spec
  apply Finset.sum_nonneg
  intro i hi
  exact mul_nonneg (hx _ (getD_mem (Finset.mem_range.mp hi)))
    (hg i (Finset.mem_range.mp hi))

/-- One-line-item table with zero resource columns, unit risk and
leverage weights, and a negative GSIB contribution entry. -/
def c9Df : RefTable := ⟨[-2], [1], [1], [0], [0], [0], [0], [1]⟩

/-- C9 counterexample: with the zero CET1 resource column of `c9Df`,
nonnegative balances [1] and positive threshold 1, `srwa_cet1` returns
1 > 0 — the negative GSIB contribution makes the effective threshold
negative, so the claimed `≤ 0` fails. -/
theorem zero_resource_positive_value_instance :
    (∀ v ∈ c9Df.CET1_resource, v = 0) ∧ (∀ v ∈ [(1 : ℚ)], 0 ≤ v) ∧
    (0 : ℚ) < 1 ∧ srwa_cet1 [1] c9Df [1, 1, 1, 1] = some 1 ∧ ¬ ((1 : ℚ) ≤ 0) := by
  refine ⟨by decide, by decide, by norm_num, ?_, by norm_num⟩
  norm_num [srwa_cet1, c9Df, loopSum, List.get?]

/-- C9 amended: when the selected resource column is all zero, each
constraint function returns exactly
`−Σ_i (threshold + gsib_addon)·risk[i]·x[i]` (no add-on for leverage);
this value is ≤ 0 for nonnegative balances and positive thresholds
provided additionally the GSIB contribution and risk-weight columns are
nonnegative over the line items. -/
theorem zero_resource_reduction (x : List ℚ) (df : RefTable) (mins : List ℚ)
    (hg : x.length ≤ df.cet1_contr_per_balance.length)
    (hs : x.length ≤ df.s_rwa.length)
    (ha : x.length ≤ df.a_rwa.length)
    (h1 : x.length ≤ df.CET1_resource.length)
    (h2 : x.length ≤ df.T1_resource.length)
    (h3 : x.length ≤ df.total_capital_resource.length)
    (h4 : x.length ≤ df.TLAC_resource.length)
    (hl : x.length ≤ df.b1_leverage.length)
    (hm : 4 ≤ mins.length)
    (hres1 : ∀ v ∈ df.CET1_resource, v = 0)
    (hres2 : ∀ v ∈ df.T1_resource, v = 0)
    (hres3 : ∀ v ∈ df.total_capital_resource, v = 0)
    (hres4 : ∀ v ∈ df.TLAC_resource, v = 0) :
    (srwa_cet1 x df mins = some (-(∑ i ∈ Finset.range x.length,
        (mins.getD 0 0 + gsib_addon_spec x df) * df.s_rwa.getD i 0 * x.getD i 0)) ∧
      srwa_t1 x df mins = some (-(∑ i ∈ Finset.range x.length,
        (mins.getD 1 0 + gsib_addon_spec x df) * df.s_rwa.getD i 0 * x.getD i 0)) ∧
      srwa_tc x df mins = some (-(∑ i ∈ Finset.range x.length,
        (mins.getD 2 0 + gsib_addon_spec x df) * df.s_rwa.getD i 0 * x.getD i 0)) ∧
      srwa_tlac x df mins = some (-(∑ i ∈ Finset.range x.length,
        (mins.getD 3 0 + gsib_addon_spec x df) * df.s_rwa.getD i 0 * x.getD i 0)) ∧
      arwa_cet1 x df mins = some (-(∑ i ∈ Finset.range x.length,
        (mins.getD 0 0 + gsib_addon_spec x df) * df.a_rwa.getD i 0 * x.getD i 0)) ∧
      arwa_t1 x df mins = some (-(∑ i ∈ Finset.range x.length,
        (mins.getD 1 0 + gsib_addon_spec x df) * df.a_rwa.getD i 0 * x.getD i 0)) ∧
      arwa_tc x df mins = some (-(∑ i ∈ Finset.range x.length,
        (mins.getD 2 0 + gsib_addon_spec x df) * df.a_rwa.getD i 0 * x.getD i 0)) ∧
      arwa_tlac x df mins = some (-(∑ i ∈ Finset.range x.length,
        (mins.getD 3 0 + gsib_addon_spec x df) * df.a_rwa.getD i 0 * x.getD i 0)) ∧
      lev_cet1 x df mins = some (-(∑ i ∈ Finset.range x.length,
        mins.getD 0 0 * df.b1_leverage.getD i 0 * x.getD i 0)) ∧
      lev_t1 x df mins = some (-(∑ i ∈ Finset.range x.length,
        mins.getD 1 0 * df.b1_leverage.getD i 0 * x.getD i 0))) ∧
    ((∀ v ∈ x, 0 ≤ v) → (∀ i < 4, 0 < mins.getD i 0) →
      (∀ i < x.length, 0 ≤ df.cet1_contr_per_balance.getD i 0) →
      (∀ i < x.length, 0 ≤ df.s_rwa.getD i 0) →
      (∀ i < x.length, 0 ≤ df.a_rwa.getD i 0) →
      (∀ i < x.length, 0 ≤ df.b1_leverage.getD i 0) →
      (srwa_cet1 x df mins).getD 0 ≤ 0 ∧ (srwa_t1 x df mins).getD 0 ≤ 0 ∧
      (srwa_tc x df mins).getD 0 ≤ 0 ∧ (srwa_tlac x df mins).getD 0 ≤ 0 ∧
      (arwa_cet1 x df mins).getD 0 ≤ 0 ∧ (arwa_t1 x df mins).getD 0 ≤ 0 ∧
      (arwa_tc x df mins).getD 0 ≤ 0 ∧ (arwa_tlac x df mins).getD 0 ≤ 0 ∧
      (lev_cet1 x df mins).getD 0 ≤ 0 ∧ (lev_t1 x df mins).getD 0 ≤ 0) := by
  have m0 : 0 < mins.length := lt_of_lt_of_le (by norm_num) hm
  have m1 : 1 < mins.length := lt_of_lt_of_le (by norm_num) hm
  have m2 : 2 < mins.length := lt_of_lt_of_le (by norm_num) hm
  have m3 : 3 < mins.length := lt_of_lt_of_le (by norm_num) hm
  have f1 : srwa_cet1 x df mins = some (-(∑ i ∈ Finset.range x.length,
      (mins.getD 0 0 + gsib_addon_spec x df) * df.s_rwa.getD i 0 * x.getD i 0)) := by
    rw [srwa_cet1_closed x df mins hg hs h1 m0,
      constraint_spec_zero_res x df.s_rwa df.CET1_resource _ hres1]
  have f2 : srwa_t1 x df mins = some (-(∑ i ∈ Finset.range x.length,
      (mins.getD 1 0 + gsib_addon_spec x df) * df.s_rwa.getD i 0 * x.getD i 0)) := by
    rw [srwa_t1_closed x df mins hg hs h2 m1,
      constraint_spec_zero_res x df.s_rwa df.T1_resource _ hres2]
  have f3 : srwa_tc x df mins = some (-(∑ i ∈ Finset.range x.length,
      (mins.getD 2 0 + gsib_addon_spec x df) * df.s_rwa.getD i 0 * x.getD i 0)) := by
    rw [srwa_tc_closed x df mins hg hs h3 m2,
      constraint_spec_zero_res x df.s_rwa df.total_capital_resource _ hres3]
  have f4 : srwa_tlac x df mins = some (-(∑ i ∈ Finset.range x.length,
      (mins.getD 3 0 + gsib_addon_spec x df) * df.s_rwa.getD i 0 * x.getD i 0)) := by
    rw [srwa_tlac_closed x df mins hg hs h4 m3,
      constraint_spec_zero_res x df.s_rwa df.TLAC_resource _ hres4]
  have f5 : arwa_cet1 x df mins = some (-(∑ i ∈ Finset.range x.length,
      (mins.getD 0 0 + gsib_addon_spec x df) * df.a_rwa.getD i 0 * x.getD i 0)) := by
    rw [arwa_cet1_closed x df mins hg ha h1 m0,
      constraint_spec_zero_res x df.a_rwa df.CET1_resource _ hres1]
  have f6 : arwa_t1 x df mins = some (-(∑ i ∈ Finset.range x.length,
      (mins.getD 1 0 + gsib_addon_spec x df) * df.a_rwa.getD i 0 * x.getD i 0)) := by
    rw [arwa_t1_closed x df mins hg ha h2 m1,
      constraint_spec_zero_res x df.a_rwa df.T1_resource _ hres2]
  have f7 : arwa_tc x df mins = some (-(∑ i ∈ Finset.range x.length,
      (mins.getD 2 0 + gsib_addon_spec x df) * df.a_rwa.getD i 0 * x.getD i 0)) := by
    rw [arwa_tc_closed x df mins hg ha h3 m2,
      constraint_spec_zero_res x df.a_rwa df.total_capital_resource _ hres3]
  have f8 : arwa_tlac x df mins = some (-(∑ i ∈ Finset.range x.length,
      (mins.getD 3 0 + gsib_addon_spec x df) * df.a_rwa.getD i 0 * x.getD i 0)) := by
    rw [arwa_tlac_closed x df mins hg ha h4 m3,
      constraint_spec_zero_res x df.a_rwa df.TLAC_resource _ hres4]
  have f9 : lev_cet1 x df mins = some (-(∑ i ∈ Finset.range x.length,
      mins.getD 0 0 * df.b1_leverage.getD i 0 * x.getD i 0)) := by
    rw [lev_cet1_closed x df mins hl h1 m0,
      constraint_spec_zero_res x df.b1_leverage df.CET1_resource _ hres1]
  have f10 : lev_t1 x df mins = some (-(∑ i ∈ Finset.range x.length,
      mins.getD 1 0 * df.b1_leverage.getD i 0 * x.getD i 0)) := by
    rw [lev_t1_closed x df mins hl h2 m1,
      constraint_spec_zero_res x df.b1_leverage df.T1_resource _ hres2]
  refine ⟨⟨f1, f2, f3, f4, f5, f6, f7, f8, f9, f10⟩,
    fun hxnn hts hgnn hsnn hann hlnn => ?_⟩
  have hG : 0 ≤ gsib_addon_spec x df := gsib_addon_spec_nonneg x df hxnn hgnn
  have t0 : (0 : ℚ) ≤ mins.getD 0 0 + gsib_addon_spec x df :=
    add_nonneg (le_of_lt (hts 0 (by norm_num))) hG
  have t1 : (0 : ℚ) ≤ mins.getD 1 0 + gsib_addon_spec x df :=
    add_nonneg (le_of_lt (hts 1 (by norm_num))) hG
  have t2 : (0 : ℚ) ≤ mins.getD 2 0 + gsib_addon_spec x df :=
    add_nonneg (le_of_lt (hts 2 (by norm_num))) hG
  have t3 : (0 : ℚ) ≤ mins.getD 3 0 + gsib_addon_spec x df :=
    add_nonneg (le_of_lt (hts 3 (by norm_num))) hG
  exact ⟨by rw [f1, Option.getD_some]; exact neg_sum_nonpos x df.s_rwa _ t0 hxnn hsnn,
    by rw [f2, Option.getD_some]; exact neg_sum_nonpos x df.s_rwa _ t1 hxnn hsnn,
    by rw [f3, Option.getD_some]; exact neg_sum_nonpos x df.s_rwa _ t2 hxnn hsnn,
    by rw [f4, Option.getD_some]; exact neg_sum_nonpos x df.s_rwa _ t3 hxnn hsnn,
    by rw [f5, Option.getD_some]; exact neg_sum_nonpos x df.a_rwa _ t0 hxnn hann,
    by rw [f6, Option.getD_some]; exact neg_sum_nonpos x df.a_rwa _ t1 hxnn hann,
    by rw [f7, Option.getD_some]; exact neg_sum_nonpos x df.a_rwa _ t2 hxnn hann,
    by rw [f8, Option.getD_some]; exact neg_sum_nonpos x df.a_rwa _ t3 hxnn hann,
    by
      rw [f9, Option.getD_some]
      exact neg_sum_nonpos x df.b1_leverage _ (le_of_lt (hts 0 (by norm_num))) hxnn hlnn,
    by
      rw [f10, Option.getD_some]
      exact neg_sum_nonpos x df.b1_leverage _ (le_of_lt (hts 1 (by norm_num))) hxnn hlnn⟩

/-- The balance vector used in several concrete witnesses. -/
def wX : List ℚ := [100, 200]

/-- Two-line-item table with every resource column zero. -/
def c9wDf : RefTable :=
  ⟨[1/100, 1/50], [1/2, 1], [3/5, 9/10], [0, 0], [0, 0], [0, 0], [0, 0], [2, 1]⟩

/-- Witness for the amended C9 at a concrete input with zero resource
columns and nonnegative weights. -/
theorem zero_resource_reduction_witness :
    (srwa_cet1 wX c9wDf wMins = some (-(∑ i ∈ Finset.range wX.length,
        (wMins.getD 0 0 + gsib_addon_spec wX c9wDf) * c9wDf.s_rwa.getD i 0 * wX.getD i 0)) ∧
      srwa_t1 wX c9wDf wMins = some (-(∑ i ∈ Finset.range wX.length,
        (wMins.getD 1 0 + gsib_addon_spec wX c9wDf) * c9wDf.s_rwa.getD i 0 * wX.getD i 0)) ∧
      srwa_tc wX c9wDf wMins = some (-(∑ i ∈ Finset.range wX.length,
        (wMins.getD 2 0 + gsib_addon_spec wX c9wDf) * c9wDf.s_rwa.getD i 0 * wX.getD i 0)) ∧
      srwa_tlac wX c9wDf wMins = some (-(∑ i ∈ Finset.range wX.length,
        (wMins.getD 3 0 + gsib_addon_spec wX c9wDf) * c9wDf.s_rwa.getD i 0 * wX.getD i 0)) ∧
      arwa_cet1 wX c9wDf wMins = some (-(∑ i ∈ Finset.range wX.length,
        (wMins.getD 0 0 + gsib_addon_spec wX c9wDf) * c9wDf.a_rwa.getD i 0 * wX.getD i 0)) ∧
      arwa_t1 wX c9wDf wMins = some (-(∑ i ∈ Finset.range wX.length,
        (wMins.getD 1 0 + gsib_addon_spec wX c9wDf) * c9wDf.a_rwa.getD i 0 * wX.getD i 0)) ∧
      arwa_tc wX c9wDf wMins = some (-(∑ i ∈ Finset.range wX.length,
        (wMins.getD 2 0 + gsib_addon_spec wX c9wDf) * c9wDf.a_rwa.getD i 0 * wX.getD i 0)) ∧
      arwa_tlac wX c9wDf wMins = some (-(∑ i ∈ Finset.range wX.length,
        (wMins.getD 3 0 + gsib_addon_spec wX c9wDf) * c9wDf.a_rwa.getD i 0 * wX.getD i 0)) ∧
      lev_cet1 wX c9wDf wMins = some (-(∑ i ∈ Finset.range wX.length,
        wMins.getD 0 0 * c9wDf.b1_leverage.getD i 0 * wX.getD i 0)) ∧
      lev_t1 wX c9wDf wMins = some (-(∑ i ∈ Finset.range wX.length,
        wMins.getD 1 0 * c9wDf.b1_leverage.getD i 0 * wX.getD i 0))) ∧
    ((srwa_cet1 wX c9wDf wMins).getD 0 ≤ 0 ∧ (srwa_t1 wX c9wDf wMins).getD 0 ≤ 0 ∧
      (srwa_tc wX c9wDf wMins).getD 0 ≤ 0 ∧ (srwa_tlac wX c9wDf wMins).getD 0 ≤ 0 ∧
      (arwa_cet1 wX c9wDf wMins).getD 0 ≤ 0 ∧ (arwa_t1 wX c9wDf wMins).getD 0 ≤ 0 ∧
      (arwa_tc wX c9wDf wMins).getD 0 ≤ 0 ∧ (arwa_tlac wX c9wDf wMins).getD 0 ≤ 0 ∧
      (lev_cet1 wX c9wDf wMins).getD 0 ≤ 0 ∧ (lev_t1 wX c9wDf wMins).getD 0 ≤ 0) := by
  have h := zero_resource_reduction wX c9wDf wMins (by decide) (by decide) (by decide)
    (by decide) (by decide) (by decide) (by decide) (by decide) (by decide)
    (by decide) (by decide) (by decide) (by decide)
  exact ⟨h.1, h.2 (by decide)
    (by intro i hi; interval_cases i <;> norm_num [wMins])
    (by intro i hi; norm_num [wX] at hi; interval_cases i <;> norm_num [c9wDf])
    (by intro i hi; norm_num [wX] at hi; interval_cases i <;> norm_num [c9wDf])
    (by intro i hi; norm_num [wX] at hi; interval_cases i <;> norm_num [c9wDf])
    (by intro i hi; norm_num [wX] at hi; interval_cases i <;> norm_num [c9wDf])⟩

/-- C10: all eight GSIB-bearing functions compute the identical add-on
from the single column `cet1_contr_per_balance`: the one number
`gsib_addon_spec x df = Σ_i x[i]·df.cet1_contr_per_balance[i]` is the
add-on of every tier, including Tier1, Total Capital and TLAC. -/
theorem shared_gsib_addon_column (x : List ℚ) (df : RefTable) (mins : List ℚ)
    (hg : x.length ≤ df.cet1_contr_per_balance.length)
    (hs : x.length ≤ df.s_rwa.length)
    (ha : x.length ≤ df.a_rwa.length)
    (h1 : x.length ≤ df.CET1_resource.length)
    (h2 : x.length ≤ df.T1_resource.length)
    (h3 : x.length ≤ df.total_capital_resource.length)
    (h4 : x.length ≤ df.TLAC_resource.length)
    (hm : 4 ≤ mins.length) :
    gsib_addon_spec x df
        = ∑ i ∈ Finset.range x.length, x.getD i 0 * df.cet1_contr_per_balance.getD i 0 ∧
    srwa_cet1 x df mins = some (constraint_spec x df.s_rwa df.CET1_resource
        (mins.getD 0 0 + gsib_addon_spec x df)) ∧
    srwa_t1 x df mins = some (constraint_spec x df.s_rwa df.T1_resource
        (mins.getD 1 0 + gsib_addon_spec x df)) ∧
    srwa_tc x df mins = some (constraint_spec x df.s_rwa df.total_capital_resource
        (mins.getD 2 0 + gsib_addon_spec x df)) ∧
    srwa_tlac x df mins = some (constraint_spec x df.s_rwa df.TLAC_resource
        (mins.getD 3 0 + gsib_addon_spec x df)) ∧
    arwa_cet1 x df mins = some (constraint_spec x df.a_rwa df.CET1_resource
        (mins.getD 0 0 + gsib_addon_spec x df)) ∧
    arwa_t1 x df mins = some (constraint_spec x df.a_rwa df.T1_resource
        (mins.getD 1 0 + gsib_addon_spec x df)) ∧
    arwa_tc x df mins = some (constraint_spec x df.a_rwa df.total_capital_resource
        (mins.getD 2 0 + gsib_addon_spec x df)) ∧
    arwa_tlac x df mins = some (constraint_spec x df.a_rwa df.TLAC_resource
        (mins.getD 3 0 + gsib_addon_spec x df)) :=
  ⟨rfl,
   srwa_cet1_closed x df mins hg hs h1 (lt_of_lt_of_le (by norm_num) hm),
   srwa_t1_closed x df mins hg hs h2 (lt_of_lt_of_le (by norm_num) hm),
   srwa_tc_closed x df mins hg hs h3 (lt_of_lt_of_le (by norm_num) hm),
   srwa_tlac_closed x df mins hg hs h4 (lt_of_lt_of_le (by norm_num) hm),
   arwa_cet1_closed x df mins hg ha h1 (lt_of_lt_of_le (by norm_num) hm),
   arwa_t1_closed x df mins hg ha h2 (lt_of_lt_of_le (by norm_num) hm),
   arwa_tc_closed x df mins hg ha h3 (lt_of_lt_of_le (by norm_num) hm),
   arwa_tlac_closed x df mins hg ha h4 (lt_of_lt_of_le (by norm_num) hm)⟩

/-- Witness for C10 at a concrete input with a nonzero GSIB
contribution column. -/
theorem shared_gsib_addon_column_witness :
    gsib_addon_spec wX wDf
        = ∑ i ∈ Finset.range wX.length, wX.getD i 0 * wDf.cet1_contr_per_balance.getD i 0 ∧
    srwa_cet1 wX wDf wMins = some (constraint_spec wX wDf.s_rwa wDf.CET1_resource
        (wMins.getD 0 0 + gsib_addon_spec wX wDf)) ∧
    srwa_t1 wX wDf wMins = some (constraint_spec wX wDf.s_rwa wDf.T1_resource
        (wMins.getD 1 0 + gsib_addon_spec wX wDf)) ∧
    srwa_tc wX wDf wMins = some (constraint_spec wX wDf.s_rwa wDf.total_capital_resource
        (wMins.getD 2 0 + gsib_addon_spec wX wDf)) ∧
    srwa_tlac wX wDf wMins = some (constraint_spec wX wDf.s_rwa wDf.TLAC_resource
        (wMins.getD 3 0 + gsib_addon_spec wX wDf)) ∧
    arwa_cet1 wX wDf wMins = some (constraint_spec wX wDf.a_rwa wDf.CET1_resource
        (wMins.getD 0 0 + gsib_addon_spec wX wDf)) ∧
    arwa_t1 wX wDf wMins = some (constraint_spec wX wDf.a_rwa wDf.T1_resource
        (wMins.getD 1 0 + gsib_addon_spec wX wDf)) ∧
    arwa_tc wX wDf wMins = some (constraint_spec wX wDf.a_rwa wDf.total_capital_resource
        (wMins.getD 2 0 + gsib_addon_spec wX wDf)) ∧
    arwa_tlac wX wDf wMins = some (constraint_spec wX wDf.a_rwa wDf.TLAC_resource
        (wMins.getD 3 0 + gsib_addon_spec wX wDf)) :=
  shared_gsib_addon_column wX wDf wMins (by decide) (by decide) (by decide) (by decide)
    (by decide) (by decide) (by decide) (by decide)

end IneqConstraints
